import Mathlib

/-!
Verification of the HireSense AI backend service (`ai-service/main.py`,
`ai-service/lib/pdf_utils.py`) against its natural-language specification.

Texts are modelled as lists of characters (`Str`).  Python's `str.lower` /
`str.upper` are charwise Unicode case maps; we embed them on the ASCII range
together with U+0131 (LATIN SMALL LETTER DOTLESS I, whose Python uppercase is
the ASCII letter `I`), which covers every character appearing in the inputs
considered here.  Python's substring test `s in text` is contiguous-sublist
containment.  Python sets of vocabulary words are embedded as duplicate-free
sublists of the fixed vocabulary list, so cardinalities and intersections
coincide with the Python sets.

Arithmetic note: in `calculate_score` the source computes
`raw = int((len(matched) / len(job_skills)) * 100)` with IEEE doubles and then
`round(raw / 5) * 5`.  For every reachable pair `m ≤ j ≤ 28` (the vocabulary
has 28 entries) the double computation `int((m/j)*100)` equals the exact
`⌊100*m/j⌋`, and since `raw` is an integer, `raw/5` is never exactly halfway
between two integers, so Python's banker's rounding agrees with
round-half-up: `round(raw/5)*5 = (raw+2)/5*5` on naturals.  The embedding
below therefore uses exact natural-number arithmetic.
-/

set_option maxRecDepth 100000

namespace HireSense

/-- Texts (Python `str`) as lists of characters. -/
abbrev Str := List Char

/-- View a Lean string literal as a `Str`. -/
def ofString (s : String) : Str := s.data

/-- Python `str.lower`, charwise, on the modelled character range: ASCII
uppercase letters map down by 32; every other modelled character (including
U+0131, already lowercase) is fixed. -/
def pyCharLower (c : Char) : Char :=
  if 65 ≤ c.toNat ∧ c.toNat ≤ 90 then Char.ofNat (c.toNat + 32) else c

/-- Python `str.upper`, charwise, on the modelled character range: ASCII
lowercase letters map up by 32, and U+0131 (dotless i) maps to the ASCII
letter `I` (code 73), exactly as CPython's Unicode uppercase mapping does. -/
def pyCharUpper (c : Char) : Char :=
  if c.toNat = 305 then Char.ofNat 73
  else if 97 ≤ c.toNat ∧ c.toNat ≤ 122 then Char.ofNat (c.toNat - 32) else c

/-- Python `text.lower()`. -/
def pyLower (t : Str) : Str := t.map pyCharLower

/-- Python `text.upper()`. -/
def pyUpper (t : Str) : Str := t.map pyCharUpper

/-- Python `needle in haystack` on strings: contiguous substring containment. -/
def substr (needle haystack : Str) : Bool := decide (needle <:+: haystack)

/-- The fixed skill vocabulary `skill_keywords` from `extract_skills` in
`main.py`, in source order. -/
def skill_keywords : List Str :=
  [ofString "python", ofString "java", ofString "javascript", ofString "typescript",
   ofString "react", ofString "angular", ofString "vue",
   ofString "sql", ofString "postgresql", ofString "mysql", ofString "mongodb",
   ofString "fastapi", ofString "django", ofString "flask",
   ofString "aws", ofString "azure", ofString "gcp", ofString "cloud",
   ofString "docker", ofString "kubernetes", ofString "ci/cd",
   ofString "machine learning", ofString "data analysis",
   ofString "backend", ofString "frontend", ofString "api",
   ofString "git", ofString "linux"]

/-- `extract_skills` from `main.py`: lower-case the text and return the set of
vocabulary terms occurring as substrings.  The Python set is embedded as the
duplicate-free sublist of `skill_keywords` of the matching terms. -/
def extract_skills (text : Str) : List Str :=
  skill_keywords.filter (fun s => substr s (pyLower text))

/-- `calculate_score` from `main.py`.  `matched` is the Python set
intersection `resume_skills ∩ job_skills`; the two final lines embed the
float expressions exactly (see the file header). -/
def calculate_score (resume job : Str) : Nat :=
  let resume_skills := extract_skills resume
  let job_skills := extract_skills job
  if job_skills.isEmpty then 50
  else
    let matched := resume_skills.filter (fun s => decide (s ∈ job_skills))
    let raw := matched.length * 100 / job_skills.length
    (raw + 2) / 5 * 5

/-- `extract_text_from_pdf` from `lib/pdf_utils.py`: a page is modelled as
`Option Str` (`page.extract_text()` may return `None`); pages whose text is
`None` or empty contribute nothing, and the chunks are joined by newlines. -/
def extract_text_from_pdf (pages : List (Option Str)) : Str :=
  List.intercalate (ofString "\n")
    (pages.filterMap (fun p =>
      match p with
      | none => none
      | some t => if t.isEmpty then none else some t))

/-- An uploaded file: its filename, and the outcome of opening and extracting
it with pdfplumber (`Except.error` models a raised extraction exception). -/
structure UploadFile where
  filename : Str
  pdf : Except Str (List (Option Str))

/-- The three external LLM agents (`resume_agent`, `job_agent`,
`match_agent`), modelled as oracles from input text to either an output text
or a raised exception. -/
structure Agents where
  resume_run : Str → Except Unit Str
  job_run : Str → Except Unit Str
  match_run : Str → Except Unit Str

/-- The `analysis` object of the response of `POST /analyze`. -/
structure AnalysisResult where
  match_score : Nat
  strengths : List Str
  gaps : List Str
  improvement_suggestions : List Str
deriving DecidableEq

/-- The response body of `POST /analyze`. -/
structure AnalyzeResponse where
  resume : Str
  job : Str
  analysis : AnalysisResult
deriving DecidableEq

/-- Step 1 of the handler: choose the resume source.  `resume_file` wins if
present; a non-`.pdf` filename or a missing/empty (falsy) `resume_text`
raises `ValueError`, modelled as `Except.error`. -/
def get_resume_content (resume_text : Option Str) (resume_file : Option UploadFile) :
    Except Str Str :=
  match resume_file with
  | some f =>
      if decide (ofString ".pdf" <:+ f.filename) then
        match f.pdf with
        | Except.ok pages => Except.ok (extract_text_from_pdf pages)
        | Except.error e => Except.error e
      else Except.error (ofString "Only PDF resumes are supported")
  | none =>
      match resume_text with
      | some t =>
          if t.isEmpty then Except.error (ofString "Resume text or PDF required")
          else Except.ok t
      | none => Except.error (ofString "Resume text or PDF required")

/-- Step 4 of the handler: the safe structured `analysis` object built from
the deterministic score and the resume content, exactly as in `main.py`
(lines 158-186). -/
def build_analysis (score : Nat) (resume_content : Str) : AnalysisResult :=
  let strengths :=
    if 70 ≤ score then
      [ofString "Strong overlap between resume skills and job requirements."]
    else if 40 ≤ score then
      [ofString "Some relevant skills match the job description."]
    else []
  let gaps0 :=
    if 70 ≤ score then []
    else if 40 ≤ score then
      [ofString "Several required skills are missing or weakly represented."]
    else [ofString "Limited alignment between resume and job description."]
  let apiMissing := !(substr (ofString "api") (pyLower resume_content))
  let gaps := gaps0 ++
    (if apiMissing then
      [ofString "API development experience is not clearly demonstrated."]
     else [])
  let suggestions0 :=
    if apiMissing then [ofString "Add specific API or backend project experience."]
    else []
  let suggestions :=
    if suggestions0.isEmpty then
      [ofString "Continue strengthening core skills relevant to the role."]
    else suggestions0
  { match_score := score, strengths := strengths, gaps := gaps,
    improvement_suggestions := suggestions }

/-- The f-string `combined_input` fed to the match agent. -/
def combined_input (resume_out job_out : Str) : Str :=
  ofString "\nRESUME:\n" ++ resume_out ++ ofString "\n\nJOB:\n" ++ job_out ++ ofString "\n"

/-- The body of the `try` block of the `analyze` handler: any raised
exception surfaces as `Except.error`.  The match agent's own `try/except`
swallows its failure (`match_text` is computed but never used, as in the
source). -/
def analyze_inner (job_text : Str) (resume_text : Option Str)
    (resume_file : Option UploadFile) (ag : Agents) : Except Str AnalyzeResponse :=
  match get_resume_content resume_text resume_file with
  | Except.error e => Except.error e
  | Except.ok resume_content =>
    match ag.resume_run resume_content with
    | Except.error _ => Except.error (ofString "resume agent raised")
    | Except.ok resume_out =>
      match ag.job_run job_text with
      | Except.error _ => Except.error (ofString "job agent raised")
      | Except.ok job_out =>
        let _match_text : Str :=
          match ag.match_run (combined_input resume_out job_out) with
          | Except.ok t => t
          | Except.error _ => []
        let score := calculate_score resume_content job_text
        Except.ok { resume := resume_out, job := job_out,
                    analysis := build_analysis score resume_content }

/-- The absolute-fallback response returned by the handler's `except` block
(`main.py` lines 192-204). -/
def fallback_response : AnalyzeResponse :=
  { resume := [], job := [],
    analysis :=
      { match_score := 50,
        strengths := [ofString "Resume was processed successfully."],
        gaps := [ofString "Unable to fully analyze resume content."],
        improvement_suggestions :=
          [ofString "Try simplifying the resume text or uploading a clearer PDF."] } }

/-- The complete `POST /analyze` handler: the `try` body with the outer
`except Exception` catch-all that returns the fallback response. -/
def analyze (job_text : Str) (resume_text : Option Str)
    (resume_file : Option UploadFile) (ag : Agents) : AnalyzeResponse :=
  match analyze_inner job_text resume_text resume_file ag with
  | Except.ok r => r
  | Except.error _ => fallback_response

/-- Concrete agent oracles that always succeed, used for closed evaluations
of the handler. -/
def agentsOK : Agents :=
  { resume_run := fun _ => Except.ok (ofString "structured resume"),
    job_run := fun _ => Except.ok (ofString "structured job"),
    match_run := fun _ => Except.ok (ofString "match analysis") }

/-- A concrete uploaded file whose name does not end in `.pdf`. -/
def nonPdfUpload : UploadFile :=
  { filename := ofString "resume.txt",
    pdf := Except.ok [some (ofString "Python and Docker experience.")] }

/-- Concrete agent oracles whose match agent always raises, while the resume
and job agents succeed with the same outputs as `agentsOK`. -/
def agentsMatchFail : Agents :=
  { resume_run := fun _ => Except.ok (ofString "structured resume"),
    job_run := fun _ => Except.ok (ofString "structured job"),
    match_run := fun _ => Except.error () }

/-- Job text of end-to-end scenario A of the spec. -/
def jobA : Str := ofString "We need a Python and Docker backend engineer."

/-- Resume text of end-to-end scenario A of the spec. -/
def resumeA : Str := ofString "I have 5 years of Python, Docker, and Kubernetes experience."

/-! ### Helper lemmas -/

lemma substr_append_right (s a b : Str) (h : substr s a = true) :
    substr s (a ++ b) = true := by
  unfold substr at h ⊢
  rw [decide_eq_true_eq] at h
  rcases h with ⟨u, v, huv⟩
  exact decide_eq_true ⟨u, v ++ b, by rw [← huv]; simp⟩

/-- The Python set intersection `resume_skills ∩ job_skills` of
`calculate_score`, rewritten as a single filter over the job skills. -/
lemma matched_eq (r j : Str) :
    (extract_skills r).filter (fun s => decide (s ∈ extract_skills j)) =
      (extract_skills j).filter (fun s => substr s (pyLower r)) := by
  unfold extract_skills
  rw [List.filter_filter, List.filter_filter]
  apply List.filter_congr
  intro a ha
  have hmem : a ∈ skill_keywords.filter (fun s => substr s (pyLower j)) ↔
      substr a (pyLower j) = true := by
    rw [List.mem_filter]
    exact ⟨fun h => h.2, fun h => ⟨ha, h⟩⟩
  have hdec : decide (a ∈ skill_keywords.filter (fun s => substr s (pyLower j))) =
      substr a (pyLower j) := by
    cases h : substr a (pyLower j)
    · exact decide_eq_false (fun hm => by simp [hmem.mp hm] at h)
    · exact decide_eq_true (hmem.mpr h)
  rw [hdec, Bool.and_comm]

/-- On the non-empty-job branch, `calculate_score` is the rounded ratio of
the matched-filter length to the job-skill count. -/
lemma calculate_score_eq (r j : Str) (h : extract_skills j ≠ []) :
    calculate_score r j =
      (((extract_skills j).filter (fun s => substr s (pyLower r))).length * 100 /
        (extract_skills j).length + 2) / 5 * 5 := by
  unfold calculate_score
  have hE : (extract_skills j).isEmpty = false := by
    cases hx : extract_skills j with
    | nil => exact absurd hx h
    | cons a l => rfl
  simp only [hE, Bool.false_eq_true, if_false, matched_eq r j]

lemma calculate_score_le_100 (r j : Str) : calculate_score r j ≤ 100 := by
  by_cases h : extract_skills j = []
  · unfold calculate_score
    simp [List.isEmpty_iff.mpr h]
  · rw [calculate_score_eq r j h]
    have hj : 0 < (extract_skills j).length := List.length_pos.mpr h
    have hm : ((extract_skills j).filter (fun s => substr s (pyLower r))).length ≤
        (extract_skills j).length := (List.filter_sublist _).length_le
    have hraw : ((extract_skills j).filter (fun s => substr s (pyLower r))).length * 100 /
        (extract_skills j).length ≤ 100 := by
      calc _ ≤ (extract_skills j).length * 100 / (extract_skills j).length :=
            Nat.div_le_div_right (Nat.mul_le_mul_right _ hm)
        _ = 100 := Nat.mul_div_cancel_left _ hj
    omega

lemma calculate_score_dvd (r j : Str) : 5 ∣ calculate_score r j := by
  by_cases h : extract_skills j = []
  · unfold calculate_score
    simp only [List.isEmpty_iff.mpr h, if_true]
    decide
  · rw [calculate_score_eq r j h]
    exact dvd_mul_left 5 _

lemma build_analysis_match_score (score : Nat) (rc : Str) :
    (build_analysis score rc).match_score = score := rfl

lemma build_analysis_suggestions_ne_nil (score : Nat) (rc : Str) :
    (build_analysis score rc).improvement_suggestions ≠ [] := by
  unfold build_analysis
  cases h : substr (ofString "api") (pyLower rc) <;> simp [h]

/-- Every successful run of the `try` body returns a response whose
`analysis` is `build_analysis` of the deterministic score. -/
lemma analyze_inner_ok {jt : Str} {rt : Option Str} {rf : Option UploadFile}
    {ag : Agents} {resp : AnalyzeResponse}
    (h : analyze_inner jt rt rf ag = Except.ok resp) :
    ∃ rc, resp.analysis = build_analysis (calculate_score rc jt) rc := by
  unfold analyze_inner at h
  split at h
  · simp at h
  · split at h
    · simp at h
    · split at h
      · simp at h
      · simp only [Except.ok.injEq] at h
        exact ⟨_, by rw [← h]⟩

/-- Modelled from the spec (section 4.2): round a natural number to the
nearest multiple of 5; remainders 0-2 round down and 3-4 round up (an exact
tie is impossible for integers). -/
def spec_round5 (n : Nat) : Nat :=
  if n % 5 ≤ 2 then n - n % 5 else n - n % 5 + 5

/-- Modelled from the spec (section 4.2): `job_skills = extract(job)`; if
empty, return 50; otherwise `matched = resume_skills ∩ job_skills`,
`raw = floor(100 * card(matched) / card(job_skills))`, and the result is
`raw` rounded to the nearest multiple of 5, with no clamping. -/
def spec_calculate_score (resume job : Str) : Nat :=
  let job_skills := extract_skills job
  if job_skills = [] then 50
  else
    let matched := (extract_skills resume).filter (fun s => decide (s ∈ job_skills))
    spec_round5 (100 * matched.length / job_skills.length)

lemma round5_eq (n : Nat) : (n + 2) / 5 * 5 = spec_round5 n := by
  unfold spec_round5
  split <;> omega

lemma ascii_upper_lower_fin :
    ∀ n : Fin 128,
      pyCharLower (pyCharUpper (Char.ofNat n.val)) = pyCharLower (Char.ofNat n.val) := by
  decide

lemma ascii_upper_lower {c : Char} (h : c.toNat < 128) :
    pyCharLower (pyCharUpper c) = pyCharLower c := by
  have hfin := ascii_upper_lower_fin ⟨c.toNat, h⟩
  simpa [Char.ofNat_toNat] using hfin

lemma pyLower_pyUpper {t : Str} (h : ∀ c ∈ t, c.toNat < 128) :
    pyLower (pyUpper t) = pyLower t := by
  unfold pyLower pyUpper
  rw [List.map_map]
  apply List.map_congr_left
  intro c hc
  exact ascii_upper_lower (h c hc)

lemma analyze_suggestions_ne_nil (jt : Str) (rt : Option Str)
    (rf : Option UploadFile) (ag : Agents) :
    (analyze jt rt rf ag).analysis.improvement_suggestions ≠ [] := by
  unfold analyze
  cases h : analyze_inner jt rt rf ag with
  | error e =>
    show fallback_response.analysis.improvement_suggestions ≠ []
    decide
  | ok r =>
    show r.analysis.improvement_suggestions ≠ []
    obtain ⟨rc, hrc⟩ := analyze_inner_ok h
    rw [hrc]
    exact build_analysis_suggestions_ne_nil _ _

/-! ### Claim theorems -/

/-- C1, counterexample: a non-PDF upload does not produce an "only PDF
supported" error object.  The handler returns the ordinary fallback analysis
payload — whose strengths even read "Resume was processed successfully." —
and this payload is identical to the one returned when no resume is supplied
at all, so no error object of any kind is distinguishable in the body. -/
theorem C1_counterexample :
    analyze (ofString "Python engineer") none (some nonPdfUpload) agentsOK =
      fallback_response ∧
    fallback_response.analysis.strengths =
      [ofString "Resume was processed successfully."] ∧
    analyze (ofString "Python engineer") none none agentsOK = fallback_response := by
  decide

/-- C1, amended: for every invalid resume input (no resume source, an empty
(falsy) `resume_text`, or a `resume_file` whose name does not end in `.pdf`)
the handler does not crash: it returns the fixed fallback analysis response
(match_score 50 with generic text), the same payload for every failure; no
explicit error object is produced. -/
theorem C1_amended_theorem (jt : Str) (ag : Agents) (f : UploadFile)
    (hf : ¬ (ofString ".pdf" <:+ f.filename)) :
    analyze jt none none ag = fallback_response ∧
    analyze jt (some []) none ag = fallback_response ∧
    analyze jt none (some f) ag = fallback_response := by
  refine ⟨rfl, rfl, ?_⟩
  unfold analyze analyze_inner get_resume_content
  simp [hf]

/-- C1, witness for the amended theorem at a concrete non-PDF upload. -/
theorem C1_amended_witness :
    ¬ (ofString ".pdf" <:+ nonPdfUpload.filename) ∧
    analyze (ofString "Python engineer role") none (some nonPdfUpload) agentsOK =
      fallback_response :=
  ⟨by decide,
   (C1_amended_theorem (ofString "Python engineer role") agentsOK nonPdfUpload
      (by decide)).2.2⟩

/-- C2, counterexample: on the happy path `gaps` is empty whenever the score
is at least 70 and the resume mentions "api", and `strengths` is empty
whenever the score is below 40; so neither is always non-empty. -/
theorem C2_counterexample :
    (analyze (ofString "python") (some (ofString "python api")) none
        agentsOK).analysis.gaps = [] ∧
    (analyze (ofString "python") (some (ofString "I write poems")) none
        agentsOK).analysis.strengths = [] := by
  decide

/-- C2, amended: in every response produced by POST /analyze only
`improvement_suggestions` is guaranteed non-empty; `strengths` (score below
40) and `gaps` (score at least 70 with "api" in the resume) can each be the
empty list on the happy path. -/
theorem C2_amended_theorem (jt : Str) (rt : Option Str) (rf : Option UploadFile)
    (ag : Agents) :
    (analyze jt rt rf ag).analysis.improvement_suggestions ≠ [] :=
  analyze_suggestions_ne_nil jt rt rf ag

/-- C3, counterexample: in scenario A the job text also contains the
vocabulary term "backend", so the job-skill set is not exactly
python-and-docker, and the score is 65, not 100. -/
theorem C3_counterexample :
    ofString "backend" ∈ extract_skills jobA ∧
    calculate_score resumeA jobA = 65 ∧ calculate_score resumeA jobA ≠ 100 := by
  decide

/-- C3, amended: for scenario A, extract_skills on the job text yields
exactly python, docker and backend; the resume skills are python, docker and
kubernetes; the matched set is python and docker; and the score is
round-to-5 of floor(200/3) = 65. -/
theorem C3_amended_theorem :
    extract_skills jobA = [ofString "python", ofString "docker", ofString "backend"] ∧
    extract_skills resumeA =
      [ofString "python", ofString "docker", ofString "kubernetes"] ∧
    (extract_skills resumeA).filter (fun s => decide (s ∈ extract_skills jobA)) =
      [ofString "python", ofString "docker"] ∧
    calculate_score resumeA jobA = 65 := by
  decide

/-- C4: for every pair of texts the score of `calculate_score` lies in
[0,100] (the lower bound holds by the natural-number type) and is a multiple
of 5, and the `match_score` field of every response of POST /analyze
satisfies the same bounds. -/
theorem C4_theorem (resume job jt : Str) (rt : Option Str)
    (rf : Option UploadFile) (ag : Agents) :
    (calculate_score resume job ≤ 100 ∧ 5 ∣ calculate_score resume job) ∧
      ((analyze jt rt rf ag).analysis.match_score ≤ 100 ∧
        5 ∣ (analyze jt rt rf ag).analysis.match_score) := by
  refine ⟨⟨calculate_score_le_100 _ _, calculate_score_dvd _ _⟩, ?_⟩
  unfold analyze
  cases h : analyze_inner jt rt rf ag with
  | error e =>
    show fallback_response.analysis.match_score ≤ 100 ∧
      5 ∣ fallback_response.analysis.match_score
    decide
  | ok r =>
    show r.analysis.match_score ≤ 100 ∧ 5 ∣ r.analysis.match_score
    obtain ⟨rc, hrc⟩ := analyze_inner_ok h
    rw [hrc, build_analysis_match_score]
    exact ⟨calculate_score_le_100 _ _, calculate_score_dvd _ _⟩

/-- C5: `calculate_score` implements exactly the algorithm of the spec: 50
when the job-skill set is empty, otherwise the floor of
100·card(matched)/card(job_skills) rounded to the nearest multiple of 5,
with no clamping to any narrower band. -/
theorem C5_theorem (r j : Str) : calculate_score r j = spec_calculate_score r j := by
  by_cases h : extract_skills j = []
  · unfold calculate_score spec_calculate_score
    simp [List.isEmpty_iff.mpr h, h]
  · rw [calculate_score_eq r j h]
    unfold spec_calculate_score
    rw [if_neg h, matched_eq r j, round5_eq, Nat.mul_comm]

/-- C6, counterexample: a match-delegate failure is a step that raises an
exception, yet the handler does not return fallback content for it.  With a
match agent that always raises and the request resume "python api" against
job "python", the match step raises on its actual input, but the inner
`try/except` swallows the exception and the request finishes on the happy
path: the response differs from the fallback response, echoes the resume
agent's output, and its `gaps` field is empty — not the non-empty fallback
content the claim requires for every exception-raising request. -/
theorem C6_counterexample :
    agentsMatchFail.match_run
        (combined_input (ofString "structured resume") (ofString "structured job")) =
      Except.error () ∧
    analyze (ofString "python") (some (ofString "python api")) none agentsMatchFail ≠
      fallback_response ∧
    (analyze (ofString "python") (some (ofString "python api")) none
        agentsMatchFail).analysis.gaps = [] ∧
    (analyze (ofString "python") (some (ofString "python api")) none
        agentsMatchFail).resume = ofString "structured resume" :=
  ⟨rfl, by decide, by decide, by decide⟩

/-- C6, amended: every exception that propagates to the outer handler
boundary (missing resume, non-PDF upload, extraction error, resume- or
job-delegate failure, or any other error surfacing from the `try` body)
yields the well-formed fallback response with all four AnalysisResult fields
non-empty, no exception propagates (`analyze` is a total function) and
nothing is retried; a match-delegate failure, however, is swallowed by an
inner `try/except` and the request continues on the happy path — the
response never depends on the match agent's outcome at all. -/
theorem C6_amended_theorem :
    (∀ (jt : Str) (rt : Option Str) (rf : Option UploadFile) (ag : Agents) (e : Str),
      analyze_inner jt rt rf ag = Except.error e →
      analyze jt rt rf ag = fallback_response ∧
      fallback_response.analysis.match_score = 50 ∧
      fallback_response.analysis.strengths ≠ [] ∧
      fallback_response.analysis.gaps ≠ [] ∧
      fallback_response.analysis.improvement_suggestions ≠ []) ∧
    (∀ (jt : Str) (rt : Option Str) (rf : Option UploadFile) (ag ag' : Agents),
      ag.resume_run = ag'.resume_run → ag.job_run = ag'.job_run →
      analyze jt rt rf ag = analyze jt rt rf ag') := by
  constructor
  · intro jt rt rf ag e h
    refine ⟨?_, by decide, by decide, by decide, by decide⟩
    unfold analyze
    rw [h]
  · intro jt rt rf ag ag' hres hjob
    unfold analyze analyze_inner
    rw [hres, hjob]

/-- C6, witness: the first part applied at a concrete request with no resume
supplied, and the second part applied to agents differing only in a match
agent that always raises. -/
theorem C6_amended_witness :
    (analyze_inner (ofString "python job") none none agentsOK =
        Except.error (ofString "Resume text or PDF required") ∧
      analyze (ofString "python job") none none agentsOK = fallback_response) ∧
    analyze (ofString "python") (some (ofString "python api")) none agentsMatchFail =
      analyze (ofString "python") (some (ofString "python api")) none agentsOK :=
  ⟨⟨by rfl,
    (C6_amended_theorem.1 (ofString "python job") none none agentsOK
       (ofString "Resume text or PDF required") (by rfl)).1⟩,
   C6_amended_theorem.2 (ofString "python") (some (ofString "python api")) none
     agentsMatchFail agentsOK rfl rfl⟩

/-- C7, counterexample: Python's `str.upper` maps U+0131 (dotless i) to the
ASCII letter `I`, so upper-casing can create vocabulary substrings that the
original text does not contain: the text "gıt" has no skills, but its
uppercase "GIT" lower-cases back to "git" and matches the vocabulary term
"git".  Hence extract_skills(T) = extract_skills(T.upper()) fails. -/
theorem C7_counterexample :
    extract_skills (ofString "gıt") = [] ∧
    extract_skills (pyUpper (ofString "gıt")) = [ofString "git"] := by
  decide

/-- C7, amended: for every text consisting of ASCII characters,
extract_skills(T) = extract_skills(T.upper()). -/
theorem C7_amended_theorem (t : Str) (h : ∀ c ∈ t, c.toNat < 128) :
    extract_skills t = extract_skills (pyUpper t) := by
  unfold extract_skills
  rw [pyLower_pyUpper h]

/-- C7, witness for the amended theorem at a concrete ASCII text. -/
theorem C7_amended_witness :
    (∀ c ∈ ofString "Senior Python and Docker Engineer", c.toNat < 128) ∧
    extract_skills (ofString "Senior Python and Docker Engineer") =
      extract_skills (pyUpper (ofString "Senior Python and Docker Engineer")) :=
  ⟨by decide, C7_amended_theorem _ (by decide)⟩

/-- C8: when the job text contains none of the vocabulary terms,
`calculate_score` returns exactly 50, independent of the resume content. -/
theorem C8_theorem (r j : Str) (h : extract_skills j = []) :
    calculate_score r j = 50 := by
  unfold calculate_score
  simp [List.isEmpty_iff.mpr h]

/-- C8, witness at a job text with no vocabulary terms. -/
theorem C8_witness :
    extract_skills (ofString "hello world") = [] ∧
    calculate_score (ofString "python") (ofString "hello world") = 50 :=
  ⟨by decide, C8_theorem (ofString "python") (ofString "hello world") (by decide)⟩

/-- C9: with a job whose extracted skill set is non-empty, appending text to
the resume can only increase the score: substring matches are preserved
under extension, the matched count grows, and floor division and
round-to-nearest-5 are monotone. -/
theorem C9_theorem (r t j : Str) (h : extract_skills j ≠ []) :
    calculate_score r j ≤ calculate_score (r ++ t) j := by
  rw [calculate_score_eq r j h, calculate_score_eq (r ++ t) j h]
  have hmono : ((extract_skills j).filter (fun s => substr s (pyLower r))).length ≤
      ((extract_skills j).filter (fun s => substr s (pyLower (r ++ t)))).length := by
    refine List.Sublist.length_le ?_
    refine List.monotone_filter_right _ ?_
    intro s hs
    have hsplit : pyLower (r ++ t) = pyLower r ++ pyLower t := List.map_append _ _ _
    rw [hsplit]
    exact substr_append_right _ _ _ hs
  have h1 := Nat.div_le_div_right (c := (extract_skills j).length)
      (Nat.mul_le_mul_right 100 hmono)
  have h2 := Nat.add_le_add_right h1 2
  have h3 := Nat.div_le_div_right (c := 5) h2
  exact Nat.mul_le_mul_right 5 h3

/-- C9, witness: appending "python" to the empty resume raises the score
from 0 to 100 for the job text "python". -/
theorem C9_witness :
    extract_skills (ofString "python") ≠ [] ∧
    calculate_score (ofString "") (ofString "python") ≤
      calculate_score (ofString "" ++ ofString "python") (ofString "python") :=
  ⟨by decide, C9_theorem (ofString "") (ofString "python") (ofString "python") (by decide)⟩

/-- C10: in every response of POST /analyze, on the happy path and on the
fallback path alike, the improvement_suggestions list contains at least one
element. -/
theorem C10_theorem (jt : Str) (rt : Option Str) (rf : Option UploadFile)
    (ag : Agents) :
    0 < (analyze jt rt rf ag).analysis.improvement_suggestions.length :=
  List.length_pos.mpr (analyze_suggestions_ne_nil jt rt rf ag)

end HireSense
